import Mathlib

/-!
Verification of the validation-and-reconciliation engine of the `doc-backend`
document parsing service.

The Python source is shallowly embedded:
* `Decimal` values become exact rationals (`ℚ`); Python `Decimal` arithmetic on
  the amounts appearing here is exact, except that `Decimal` division rounds to
  28 significant digits and `_is_close` converts the relative difference to a
  binary float before comparing; both are modelled as exact rational
  arithmetic.
* validation error and warning messages, which the source builds as format
  strings, are modelled as inductive datatypes carrying the interpolated
  numeric payloads;
* optional fields become `Option ℚ` / `Option String`, and Python truthiness
  (`if x:`) is modelled explicitly (`none` and `some 0` are falsy);
* the mutate-in-place functions (`_align_totals_with_ocr`,
  `_reconcile_totals_with_ocr`) become document-to-document functions.
-/

/- Batteries marks the `Rat` arithmetic primitives `@[irreducible]`; concrete
evaluation in proofs below needs them unfolded. -/
attribute [local semireducible] Rat.mul Rat.inv Rat.add Rat.sub Rat.ofScientific

/-- Validation errors produced by `MathValidator` (source: `math_validator.py`).
Each constructor carries the numeric payload interpolated into the
corresponding message string. -/
inductive VErr where
  | lineTotalMismatch (line : Nat) (shown expected qty price : ℚ)
  | taxBreakdownMismatch (rate taxable expected shown : ℚ)
  | totalTaxMismatch (total_tax breakdown_sum : ℚ)
  | grandTotalMismatch (shown subtotal tax : ℚ) (shipping : Option ℚ) (expected : ℚ)
  | amountDueMismatch (shown expected : ℚ)
  deriving DecidableEq, Repr

/-- Validation warnings produced by `MathValidator` and `TaxValidator`. -/
inductive VWarn where
  | lineTotalWarn (line : Nat) (shown expected : ℚ)
  | subtotalSumWarn (subtotal line_sum : ℚ)
  | subtotalRelWarn (subtotal tax expected total : ℚ)
  | taxBreakdownWarn (rate taxable expected shown : ℚ)
  | lineTaxSumWarn (total_tax line_sum : ℚ)
  | supplierVatWarn (tax_id : String)
  | customerVatWarn (tax_id : String)
  | taxRateWarn (rate : ℚ) (country : String)
  deriving DecidableEq, Repr

/-- Embedding of `ValidationResult` dataclass (source: `math_validator.py`). -/
structure ValidationResult where
  is_valid : Bool
  errors : List VErr := []
  warnings : List VWarn := []
  deriving DecidableEq, Repr

/-- Embedding of `ValidationResult.merge` (source: `math_validator.py` lines 15-21). -/
def ValidationResult.merge (self other : ValidationResult) : ValidationResult :=
  { is_valid := self.is_valid && other.is_valid
    errors := self.errors ++ other.errors
    warnings := self.warnings ++ other.warnings }

/-- A calendar date (Python `datetime.date`). -/
structure DateT where
  year : Nat
  month : Nat
  day : Nat
  deriving DecidableEq, Repr

/-- Embedding of `LineItem` model (source: `core/models.py`).  `quantity`, `unit_price`,
`tax_amount` and `line_total` are non-optional `Decimal`s there (with
defaults); `discount_percent`, `discount_amount` and `tax_rate` are
`Decimal | None`. -/
structure LineItem where
  line_number : Nat
  description : Option String := none
  quantity : ℚ := 1
  unit_price : ℚ := 0
  discount_percent : Option ℚ := none
  discount_amount : Option ℚ := none
  tax_rate : Option ℚ := none
  tax_amount : ℚ := 0
  line_total : ℚ := 0
  deriving DecidableEq, Repr

/-- Embedding of `TaxBreakdown` model (source: `core/models.py`). -/
structure TaxBreakdown where
  rate : ℚ
  taxable_amount : ℚ
  tax_amount : ℚ
  deriving DecidableEq, Repr

/-- Embedding of `Totals` model (source: `core/models.py`). -/
structure Totals where
  subtotal : ℚ := 0
  tax_breakdown : List TaxBreakdown := []
  total_tax : ℚ := 0
  shipping_amount : Option ℚ := none
  total_amount : ℚ := 0
  amount_due : Option ℚ := none
  prepaid_amount : Option ℚ := none
  rounding_amount : Option ℚ := none
  deriving DecidableEq, Repr

/-- Embedding of `Party` model (source: `core/models.py`), restricted to the fields the
validators and the field linker read (`name`, `tax_id`, `address.country`,
`bank.iban`). -/
structure Party where
  name : Option String := none
  tax_id : Option String := none
  address_country : Option String := none
  bank_iban : Option String := none
  deriving DecidableEq, Repr

/-- Embedding of `DocumentInfo` model (source: `core/models.py`), restricted to the fields
the field linker reads. -/
structure DocumentInfo where
  number : Option String := none
  issue_date : Option DateT := none
  due_date : Option DateT := none
  currency : String := "EUR"
  deriving DecidableEq, Repr

/-- Embedding of `CanonicalDocument` (source: `core/models.py`), restricted to the fields
read by the validators, the reconciler and the field linker. -/
structure CanonicalDocument where
  document : DocumentInfo := {}
  supplier : Party := {}
  customer : Party := {}
  line_items : List LineItem := []
  totals : Totals := {}
  deriving DecidableEq, Repr

/-- Python truthiness of an optional decimal: `None` and `0` are falsy. -/
def optTruthy : Option ℚ → Bool
  | none => false
  | some v => v != 0

/-- Python `x or Decimal("0")` on an optional decimal: the value if truthy, else 0.
(For numbers this coincides with `Option.getD 0`.) -/
def optVal (o : Option ℚ) : ℚ := o.getD 0

/-- Python truthiness of an optional string: `None` and `""` are falsy. -/
def strTruthy : Option String → Bool
  | none => false
  | some s => s != ""

namespace MathValidator

/-- The `MathValidator.ABSOLUTE_TOLERANCE = Decimal("0.02")`. -/
def ABSOLUTE_TOLERANCE : ℚ := 2/100

/-- The `MathValidator.RELATIVE_TOLERANCE = 0.01`. -/
def RELATIVE_TOLERANCE : ℚ := 1/100

/-- Embedding of `MathValidator._is_close` (source lines 281-299). -/
def is_close (a b : ℚ) : Bool :=
  let diff := |a - b|
  if diff ≤ ABSOLUTE_TOLERANCE then true
  else
    let max_val := max |a| |b|
    if max_val > 0 then decide (diff / max_val ≤ RELATIVE_TOLERANCE)
    else true

/-- Python `sum(item.line_total for item in doc.line_items)`. -/
def sumLineTotals (items : List LineItem) : ℚ :=
  items.foldl (fun acc it => acc + it.line_total) 0

/-- Embedding of `MathValidator._is_us_style_invoice` (source lines 77-102). -/
def is_us_style_invoice (doc : CanonicalDocument) : Bool :=
  if doc.line_items.isEmpty then false
  else if doc.line_items.all (fun it => it.tax_amount == 0) &&
          doc.totals.total_tax > 0 then true
  else if is_close (sumLineTotals doc.line_items) doc.totals.subtotal then true
  else false

/-- Expected gross amount for a line item: `quantity × unit_price`, with the
discount applied exactly as in the source (`discount_percent` takes priority
when truthy, else `discount_amount` when truthy). -/
def expectedGross (it : LineItem) : ℚ :=
  let eg := it.quantity * it.unit_price
  if optTruthy it.discount_percent then
    eg - eg * (it.discount_percent.getD 0 / 100)
  else if optTruthy it.discount_amount then
    eg - it.discount_amount.getD 0
  else eg

/-- One iteration of the loop in `MathValidator._validate_line_items`
(source lines 109-151), returning the errors and warnings it appends. -/
def lineItemCheck (is_us_style : Bool) (it : LineItem) : List VErr × List VWarn :=
  let eg := expectedGross it
  if is_us_style then
    if !is_close it.line_total eg then
      ([.lineTotalMismatch it.line_number it.line_total eg it.quantity it.unit_price], [])
    else ([], [])
  else
    if is_close it.line_total eg then ([], [])
    else
      match it.tax_rate with
      | some r =>
          if is_close it.line_total (eg + eg * (r / 100)) then ([], [])
          else ([], [.lineTotalWarn it.line_number it.line_total eg])
      | none => ([], [.lineTotalWarn it.line_number it.line_total eg])

/-- Embedding of `MathValidator._validate_line_items` (source lines 104-153). -/
def validate_line_items (doc : CanonicalDocument) (is_us_style : Bool) : ValidationResult :=
  let errors := (doc.line_items.map (fun it => (lineItemCheck is_us_style it).1)).flatten
  let warnings := (doc.line_items.map (fun it => (lineItemCheck is_us_style it).2)).flatten
  { is_valid := errors.isEmpty, errors := errors, warnings := warnings }

/-- Embedding of `MathValidator._validate_subtotal` (source lines 155-188); it only ever
produces warnings and always returns `is_valid = True`. -/
def validate_subtotal (doc : CanonicalDocument) (is_us_style : Bool) : ValidationResult :=
  let warnings : List VWarn :=
    if doc.line_items.isEmpty then []
    else
      let line_total_sum := sumLineTotals doc.line_items
      if is_us_style then
        if !is_close doc.totals.subtotal line_total_sum then
          [.subtotalSumWarn doc.totals.subtotal line_total_sum]
        else []
      else
        let expected_total := doc.totals.subtotal + doc.totals.total_tax
        let rounding := optVal doc.totals.rounding_amount
        if !is_close doc.totals.total_amount (expected_total + rounding) &&
           !is_close expected_total line_total_sum then
          [.subtotalRelWarn doc.totals.subtotal doc.totals.total_tax
            expected_total doc.totals.total_amount]
        else []
  { is_valid := true, warnings := warnings }

/-- Embedding of `MathValidator._validate_us_style_tax` (source lines 190-214). -/
def validate_us_style_tax (doc : CanonicalDocument) : ValidationResult :=
  let errs1 := doc.totals.tax_breakdown.filterMap (fun tb =>
    let expected_tax := tb.taxable_amount * (tb.rate / 100)
    if !is_close tb.tax_amount expected_tax then
      some (.taxBreakdownMismatch tb.rate tb.taxable_amount expected_tax tb.tax_amount)
    else none)
  let errs2 :=
    if !doc.totals.tax_breakdown.isEmpty then
      let breakdown_sum := doc.totals.tax_breakdown.foldl (fun a tb => a + tb.tax_amount) 0
      if !is_close doc.totals.total_tax breakdown_sum then
        [VErr.totalTaxMismatch doc.totals.total_tax breakdown_sum]
      else []
    else []
  let errors := errs1 ++ errs2
  { is_valid := errors.isEmpty, errors := errors }

/-- Embedding of `MathValidator._validate_eu_style_tax` (source lines 216-239); warnings
only, always `is_valid = True`. -/
def validate_eu_style_tax (doc : CanonicalDocument) : ValidationResult :=
  let warns1 := doc.totals.tax_breakdown.filterMap (fun tb =>
    let expected_tax := tb.taxable_amount * (tb.rate / 100)
    if !is_close tb.tax_amount expected_tax then
      some (.taxBreakdownWarn tb.rate tb.taxable_amount expected_tax tb.tax_amount)
    else none)
  let line_tax_sum := doc.line_items.foldl (fun a it => a + it.tax_amount) 0
  let warns2 :=
    if line_tax_sum > 0 && !is_close doc.totals.total_tax line_tax_sum then
      [VWarn.lineTaxSumWarn doc.totals.total_tax line_tax_sum]
    else []
  { is_valid := true, warnings := warns1 ++ warns2 }

/-- The `expected_total` computed by `MathValidator._validate_grand_total`
(source lines 245-253): subtotal + tax, plus shipping and rounding when
truthy. -/
def expectedTotal (t : Totals) : ℚ :=
  t.subtotal + t.total_tax
    + (if optTruthy t.shipping_amount then t.shipping_amount.getD 0 else 0)
    + (if optTruthy t.rounding_amount then t.rounding_amount.getD 0 else 0)

/-- The `expected_due` computed by `MathValidator._validate_grand_total`
(source lines 266-268): total_amount minus prepaid when truthy. -/
def expectedDue (t : Totals) : ℚ :=
  t.total_amount - (if optTruthy t.prepaid_amount then t.prepaid_amount.getD 0 else 0)

/-- Embedding of `MathValidator._validate_grand_total` (source lines 241-279).  The
`is_us_style` argument is unused, exactly as in the source. -/
def validate_grand_total (doc : CanonicalDocument) (_is_us_style : Bool) : ValidationResult :=
  let expected_total := expectedTotal doc.totals
  let err1 :=
    if !is_close doc.totals.total_amount expected_total then
      [VErr.grandTotalMismatch doc.totals.total_amount doc.totals.subtotal
        doc.totals.total_tax doc.totals.shipping_amount expected_total]
    else []
  let err2 :=
    match doc.totals.amount_due with
    | none => []
    | some ad =>
        let expected_due := expectedDue doc.totals
        if !is_close ad expected_due then
          if !is_close ad expected_total then [VErr.amountDueMismatch ad expected_due]
          else []
        else []
  let errors := err1 ++ err2
  { is_valid := errors.isEmpty, errors := errors }

/-- Embedding of `MathValidator.validate` (source lines 41-75). -/
def validate (doc : CanonicalDocument) : ValidationResult :=
  let is_us_style := is_us_style_invoice doc
  let result : ValidationResult := { is_valid := true }
  let result := result.merge (validate_line_items doc is_us_style)
  let result := result.merge (validate_subtotal doc is_us_style)
  let result := result.merge
    (if is_us_style then validate_us_style_tax doc else validate_eu_style_tax doc)
  result.merge (validate_grand_total doc is_us_style)

end MathValidator

/-- Whether `needle` is a prefix of `hay` (on character lists). -/
def listStartsWith : List Char → List Char → Bool
  | [], _ => true
  | _ :: _, [] => false
  | a :: as, b :: bs => a == b && listStartsWith as bs

/-- Python `str.strip()` (kernel-reducible replacement for `String.trim`). -/
def charTrim (s : String) : String :=
  String.mk ((((s.data.dropWhile Char.isWhitespace).reverse).dropWhile
    Char.isWhitespace).reverse)

/-- Python `str.upper()` on ASCII. -/
def charUpper (s : String) : String := String.mk (s.data.map Char.toUpper)

namespace TaxValidator

/-- Embedding of `COUNTRY_VAT_RATES` table with `dict.get(country, [])` semantics
(source: `tax_validator.py` lines 11-45). -/
def countryVatRates (c : String) : List ℚ :=
  if c = "AT" then [20, 10, 13]
  else if c = "BE" then [21, 12, 6]
  else if c = "BG" then [20, 9]
  else if c = "CY" then [19, 9, 5]
  else if c = "CZ" then [21, 15, 10]
  else if c = "DE" then [19, 7]
  else if c = "DK" then [25]
  else if c = "EE" then [22, 9]
  else if c = "ES" then [21, 10, 4]
  else if c = "FI" then [24, 14, 10]
  else if c = "FR" then [20, 10, 55/10]
  else if c = "GR" then [24, 13, 6]
  else if c = "HR" then [25, 13, 5]
  else if c = "HU" then [27, 18, 5]
  else if c = "IE" then [23, 135/10, 9]
  else if c = "IT" then [22, 10, 5]
  else if c = "LT" then [21, 9, 5]
  else if c = "LU" then [17, 14, 8]
  else if c = "LV" then [21, 12, 5]
  else if c = "MT" then [18, 7, 5]
  else if c = "NL" then [21, 9]
  else if c = "PL" then [23, 8, 5]
  else if c = "PT" then [23, 13, 6]
  else if c = "RO" then [19, 9, 5]
  else if c = "SE" then [25, 12, 6]
  else if c = "SI" then [22, 95/10]
  else if c = "SK" then [20, 10]
  else if c = "GB" then [20, 5]
  else if c = "CH" then [81/10, 26/10]
  else if c = "NO" then [25, 15, 12]
  else if c = "US" then []
  else []

/-- The keys of `VAT_ID_PATTERNS` in Python dict insertion order
(source: `tax_validator.py` lines 48-77). -/
def vatCountryCodes : List String :=
  ["AT", "BE", "BG", "CY", "CZ", "DE", "DK", "EE", "ES", "FI", "FR", "GB",
   "GR", "HR", "HU", "IE", "IT", "LT", "LU", "LV", "MT", "NL", "PL", "PT",
   "RO", "SE", "SI", "SK"]

/-- Is `c` an ASCII uppercase letter (regex class `[A-Z]`)? -/
def isUpperAZ (c : Char) : Bool := 'A' ≤ c && c ≤ 'Z'

/-- Regex class `[A-Z0-9]`. -/
def isUpperAZ09 (c : Char) : Bool := isUpperAZ c || c.isDigit

/-- Whether `cs` is exactly `n` ASCII digits. -/
def digitsN (n : Nat) (cs : List Char) : Bool :=
  cs.length == n && cs.all Char.isDigit

/-- The regex of `VAT_ID_PATTERNS[code]` applied (anchored at both ends) to the
cleaned VAT id (source: `tax_validator.py` lines 48-77). -/
def vatPatternMatch (code : String) (cs : List Char) : Bool :=
  if code = "AT" then listStartsWith "ATU".data cs && digitsN 8 (cs.drop 3)
  else if code = "BE" then
    listStartsWith "BE".data cs &&
      (match cs.drop 2 with
       | c :: ds => (c == '0' || c == '1') && digitsN 9 ds
       | [] => false)
  else if code = "BG" then
    listStartsWith "BG".data cs &&
      (digitsN 9 (cs.drop 2) || digitsN 10 (cs.drop 2))
  else if code = "CY" then
    listStartsWith "CY".data cs &&
      (let r := cs.drop 2
       r.length == 9 && digitsN 8 (r.take 8) && (r.drop 8).all isUpperAZ)
  else if code = "CZ" then
    listStartsWith "CZ".data cs &&
      (digitsN 8 (cs.drop 2) || digitsN 9 (cs.drop 2) || digitsN 10 (cs.drop 2))
  else if code = "DE" then listStartsWith "DE".data cs && digitsN 9 (cs.drop 2)
  else if code = "DK" then listStartsWith "DK".data cs && digitsN 8 (cs.drop 2)
  else if code = "EE" then listStartsWith "EE".data cs && digitsN 9 (cs.drop 2)
  else if code = "ES" then
    listStartsWith "ES".data cs &&
      (let r := cs.drop 2
       r.length == 9 && (r.take 1).all isUpperAZ09 &&
         digitsN 7 ((r.drop 1).take 7) && (r.drop 8).all isUpperAZ09)
  else if code = "FI" then listStartsWith "FI".data cs && digitsN 8 (cs.drop 2)
  else if code = "FR" then
    listStartsWith "FR".data cs &&
      (let r := cs.drop 2
       r.length == 11 && (r.take 2).all isUpperAZ09 && digitsN 9 (r.drop 2))
  else if code = "GB" then
    listStartsWith "GB".data cs &&
      (let r := cs.drop 2
       digitsN 9 r || digitsN 12 r ||
         ((listStartsWith "GD".data r || listStartsWith "HA".data r) &&
           digitsN 3 (r.drop 2)))
  else if code = "GR" then listStartsWith "EL".data cs && digitsN 9 (cs.drop 2)
  else if code = "HR" then listStartsWith "HR".data cs && digitsN 11 (cs.drop 2)
  else if code = "HU" then listStartsWith "HU".data cs && digitsN 8 (cs.drop 2)
  else if code = "IE" then
    listStartsWith "IE".data cs &&
      (let r := cs.drop 2
       (r.length == 8 || r.length == 9) && digitsN 7 (r.take 7) &&
         (r.drop 7).all isUpperAZ)
  else if code = "IT" then listStartsWith "IT".data cs && digitsN 11 (cs.drop 2)
  else if code = "LT" then
    listStartsWith "LT".data cs && (digitsN 9 (cs.drop 2) || digitsN 12 (cs.drop 2))
  else if code = "LU" then listStartsWith "LU".data cs && digitsN 8 (cs.drop 2)
  else if code = "LV" then listStartsWith "LV".data cs && digitsN 11 (cs.drop 2)
  else if code = "MT" then listStartsWith "MT".data cs && digitsN 8 (cs.drop 2)
  else if code = "NL" then
    listStartsWith "NL".data cs &&
      (let r := cs.drop 2
       r.length == 12 && digitsN 9 (r.take 9) && listStartsWith "B".data (r.drop 9) &&
         digitsN 2 (r.drop 10))
  else if code = "PL" then listStartsWith "PL".data cs && digitsN 10 (cs.drop 2)
  else if code = "PT" then listStartsWith "PT".data cs && digitsN 9 (cs.drop 2)
  else if code = "RO" then
    listStartsWith "RO".data cs &&
      (let r := cs.drop 2
       2 ≤ r.length && r.length ≤ 10 && r.all Char.isDigit)
  else if code = "SE" then listStartsWith "SE".data cs && digitsN 12 (cs.drop 2)
  else if code = "SI" then listStartsWith "SI".data cs && digitsN 8 (cs.drop 2)
  else if code = "SK" then listStartsWith "SK".data cs && digitsN 10 (cs.drop 2)
  else false

/-- Embedding of `TaxValidator._is_valid_vat_format` (source lines 169-188): clean the id,
find the first country code of the table that is a prefix (with the special
`GR`/`EL` case) and match its pattern; unknown prefixes are assumed valid. -/
def is_valid_vat_format (vat_id : String) : Bool :=
  let cs := (vat_id.data.map Char.toUpper).filter
    (fun c => c ≠ ' ' && c ≠ '-' && c ≠ '.')
  match vatCountryCodes.find? (fun code =>
      listStartsWith code.data cs ||
        (code == "GR" && listStartsWith "EL".data cs)) with
  | some code => vatPatternMatch code cs
  | none => true

/-- Embedding of `TaxValidator._validate_vat_ids` (source lines 109-128); warnings only. -/
def validate_vat_ids (doc : CanonicalDocument) : ValidationResult :=
  let w1 :=
    match doc.supplier.tax_id with
    | some t => if t ≠ "" && !is_valid_vat_format t then [VWarn.supplierVatWarn t] else []
    | none => []
  let w2 :=
    match doc.customer.tax_id with
    | some t => if t ≠ "" && !is_valid_vat_format t then [VWarn.customerVatWarn t] else []
    | none => []
  { is_valid := true, warnings := w1 ++ w2 }

/-- Deduplicate, keeping the first occurrence (model of collecting the
`used_rates` Python `set`; iteration order of a Python set is unspecified, so
only membership matters). -/
def dedupQ (l : List ℚ) : List ℚ :=
  l.foldl (fun acc r => if r ∈ acc then acc else acc ++ [r]) []

/-- Embedding of `TaxValidator._validate_tax_rates` (source lines 130-167); warnings only. -/
def validate_tax_rates (doc : CanonicalDocument) : ValidationResult :=
  match doc.supplier.address_country with
  | none => { is_valid := true }
  | some country =>
      if country = "" then { is_valid := true }
      else
        let countryU := charUpper country
        let valid_rates := countryVatRates countryU
        if valid_rates.isEmpty then { is_valid := true }
        else
          let used_rates := dedupQ
            ((doc.line_items.filterMap (fun it => it.tax_rate)) ++
              doc.totals.tax_breakdown.map (fun tb => tb.rate))
          let warns := used_rates.filterMap (fun r =>
            if r ∉ valid_rates && r ≠ 0 then some (VWarn.taxRateWarn r countryU)
            else none)
          { is_valid := true, warnings := warns }

/-- Embedding of `TaxValidator.validate` (source lines 87-107). -/
def validate (doc : CanonicalDocument) : ValidationResult :=
  let result : ValidationResult := { is_valid := true }
  let result := result.merge (validate_vat_ids doc)
  result.merge (validate_tax_rates doc)

end TaxValidator

/-- Embedding of `DocumentPipeline._validate` (source: `pipeline.py` lines 296-305): merge
of math validation and tax validation. -/
def pipelineValidate (doc : CanonicalDocument) : ValidationResult :=
  (MathValidator.validate doc).merge (TaxValidator.validate doc)

/-- Digit list to natural number. -/
def digitsToNat (ds : List Char) : Nat :=
  ds.foldl (fun a c => a * 10 + (c.toNat - '0'.toNat)) 0

/-- Model of Python `Decimal(str)` construction on the string forms reachable
here: optional sign, digits with an optional decimal point, optional exponent;
surrounding whitespace is stripped; anything else fails (`none` models the
raised `InvalidOperation`).  The special forms `NaN`/`Infinity` are not
modelled. -/
def pyDecimalParse (cs0 : List Char) : Option ℚ :=
  let cs1 := (((cs0.dropWhile Char.isWhitespace).reverse).dropWhile Char.isWhitespace).reverse
  let signed : Bool × List Char :=
    match cs1 with
    | '+' :: r => (false, r)
    | '-' :: r => (true, r)
    | _ => (false, cs1)
  let neg := signed.1
  let ip := signed.2.takeWhile Char.isDigit
  let cs2 := signed.2.drop ip.length
  let fracRest : List Char × List Char :=
    match cs2 with
    | '.' :: r => (r.takeWhile Char.isDigit, r.drop (r.takeWhile Char.isDigit).length)
    | _ => ([], cs2)
  let hadPoint : Bool := match cs2 with | '.' :: _ => true | _ => false
  let fp := fracRest.1
  let cs3 := fracRest.2
  if ip.isEmpty && fp.isEmpty then none
  else if !(ip.all Char.isDigit) then none
  else
    let mant : ℚ := (digitsToNat (ip ++ fp) : ℚ) / 10 ^ fp.length
    let expPart : Option ℤ :=
      match cs3 with
      | [] => some 0
      | e :: r =>
          if e == 'e' || e == 'E' then
            let esigned : Bool × List Char :=
              match r with
              | '+' :: r2 => (false, r2)
              | '-' :: r2 => (true, r2)
              | _ => (false, r)
            let ed := esigned.2.takeWhile Char.isDigit
            if ed.isEmpty || !(esigned.2.drop ed.length).isEmpty then none
            else some (if esigned.1 then -(digitsToNat ed : ℤ) else (digitsToNat ed : ℤ))
          else none
    match expPart with
    | none => if hadPoint && fp.isEmpty && cs3.isEmpty then some 0 else none
    | some e =>
        let v := mant * (10 : ℚ) ^ e
        some (if neg then -v else v)

/-- One attempted match of the regex `[-+]?[0-9]+(?:[.,][0-9]{1,2})?` at the
head of `cs` (greedy, as `re` does): returns the matched token and the
remaining input, or `none` when the regex cannot match here. -/
def matchNumAt (cs : List Char) : Option (List Char × List Char) :=
  let signed : List Char × List Char :=
    match cs with
    | c :: rest => if c == '+' || c == '-' then ([c], rest) else ([], cs)
    | [] => ([], [])
  let ds := signed.2.takeWhile Char.isDigit
  if ds.isEmpty then none
  else
    let cs2 := signed.2.drop ds.length
    match cs2 with
    | s :: rest2 =>
        if s == '.' || s == ',' then
          let fs := (rest2.takeWhile Char.isDigit).take 2
          if fs.isEmpty then some (signed.1 ++ ds, cs2)
          else some (signed.1 ++ ds ++ s :: fs, rest2.drop fs.length)
        else some (signed.1 ++ ds, cs2)
    | [] => some (signed.1 ++ ds, [])

/-- Model of `re.findall` of the number pattern over a segment: leftmost,
non-overlapping matches, scanning one character forward on failure.  Fueled by
the segment length (every step consumes at least one character). -/
def findNumbersAux : Nat → List Char → List (List Char)
  | 0, _ => []
  | _ + 1, [] => []
  | fuel + 1, cs@(_ :: rest) =>
      match matchNumAt cs with
      | some (m, r) => m :: findNumbersAux fuel r
      | none => findNumbersAux fuel rest

/-- All matches of `[-+]?[0-9]+(?:[.,][0-9]{1,2})?` in a segment. -/
def findNumbers (cs : List Char) : List (List Char) :=
  findNumbersAux cs.length cs

/-- Python `str.splitlines` restricted to the `\n`, `\r`, `\r\n` line
boundaries (the exotic unicode boundaries do not occur in OCR text handled
here). -/
def splitlinesGo (cur : List Char) : List Char → List (List Char)
  | [] => [cur.reverse]
  | '\r' :: '\n' :: rest =>
      cur.reverse :: (if rest.isEmpty then [] else splitlinesGo [] rest)
  | '\r' :: rest =>
      cur.reverse :: (if rest.isEmpty then [] else splitlinesGo [] rest)
  | '\n' :: rest =>
      cur.reverse :: (if rest.isEmpty then [] else splitlinesGo [] rest)
  | c :: rest => splitlinesGo (c :: cur) rest

/-- Python `str.splitlines` (empty string gives no lines). -/
def splitlines (cs : List Char) : List (List Char) :=
  if cs.isEmpty then [] else splitlinesGo [] cs

/-- Whether `needle` occurs as a contiguous sublist of `hay`
(Python `needle in hay`). -/
def listHasSub (needle : List Char) : List Char → Bool
  | [] => listStartsWith needle []
  | hay@(_ :: rest) => listStartsWith needle hay || listHasSub needle rest

/-- The candidate collection loop of `_align_totals_with_ocr` /
`_reconcile_totals_with_ocr` (source: `pipeline.py` lines 255-265,
`llm_extractor.py` lines 499-511): for every line containing "total"
(case-insensitively), parse all number-pattern matches on that line and on its
immediate successor, stripping commas before the `Decimal` conversion. -/
def candidatesFromLines : List (List Char) → List ℚ
  | [] => []
  | line :: rest =>
      let here :=
        if listHasSub "total".data (line.map Char.toLower) then
          let nextLine := match rest with | n :: _ => n | [] => ([] : List Char)
          (findNumbers line ++ findNumbers nextLine).filterMap
            (fun m => pyDecimalParse (m.filter (fun c => c ≠ ',')))
        else []
      here ++ candidatesFromLines rest

/-- All printed-total candidates found in the raw text. -/
def totalCandidates (ocr_text : List Char) : List ℚ :=
  candidatesFromLines (splitlines ocr_text)

/-- Python `max` over a list (`none` on empty). -/
def listMax : List ℚ → Option ℚ
  | [] => none
  | x :: xs => some (xs.foldl max x)

/-- Round to an integer with round-half-to-even, the default `Decimal`
rounding used by `quantize`. -/
def roundHalfEven (q : ℚ) : ℤ :=
  let f := ⌊q⌋
  let r := q - (f : ℚ)
  if r < 1/2 then f
  else if r > 1/2 then f + 1
  else if f % 2 = 0 then f else f + 1

/-- Model of `Decimal.quantize(Decimal("1.0000"))`: round to 4 decimal places,
half-to-even. -/
def quantize4 (q : ℚ) : ℚ := (roundHalfEven (q * 10000) : ℚ) / 10000

/-- The last-line-item adjustment of `_align_totals_with_ocr`
(source: `pipeline.py` lines 290-294): add `diff` to its `line_total` and,
when `unit_price` is non-zero, recompute `quantity` as the quotient rounded to
4 decimal places. -/
def adjustLastItem (it : LineItem) (diff : ℚ) : LineItem :=
  let lt := it.line_total + diff
  { it with
    line_total := lt
    quantity := if it.unit_price ≠ 0 then quantize4 (lt / it.unit_price) else it.quantity }

/-- Apply `adjustLastItem` to the last element of a list. -/
def updateLastItem : List LineItem → ℚ → List LineItem
  | [], _ => []
  | [it], diff => [adjustLastItem it diff]
  | it :: rest :: more, diff => it :: updateLastItem (rest :: more) diff

/-- Embedding of `DocumentPipeline._align_totals_with_ocr` (source: `pipeline.py` lines
239-294), identical in behaviour to `LLMExtractor._reconcile_totals_with_ocr`
(source: `llm_extractor.py` lines 485-542), as a pure document
transformation. -/
def alignTotalsWithOcr (ocr_text : List Char) (doc : CanonicalDocument) :
    CanonicalDocument :=
  if ocr_text.isEmpty then doc
  else
    match listMax (totalCandidates ocr_text) with
    | none => doc
    | some printed_total =>
        if |doc.totals.total_amount - printed_total| ≤ 2/100 then doc
        else
          let doc1 := { doc with totals := { doc.totals with
              total_amount := printed_total
              amount_due := some printed_total
              subtotal := printed_total - doc.totals.total_tax } }
          if doc.line_items.isEmpty then doc1
          else
            let current_sum := MathValidator.sumLineTotals doc.line_items
            let diff := printed_total - current_sum
            if |diff| ≤ 2/100 then doc1
            else { doc1 with line_items := updateLastItem doc.line_items diff }

/-- Embedding of `ValidationStatus` (source: `core/models.py`). -/
inductive VStatus where
  | valid
  | uncertain
  | invalid
  deriving DecidableEq, Repr

/-- The observable part of `ProcessingResult` relevant to the orchestration
claims (source: `core/models.py` / `pipeline.py`). -/
structure ProcResult where
  status : VStatus
  confidence : String
  review_required : Bool
  deriving DecidableEq, Repr

/-- The retry loop of `DocumentPipeline.process` (source: `pipeline.py` lines
127-139): while the result is invalid and retries remain, ask the LLM
collaborator (`revalidate`) for a corrected document and re-validate.  Returns
the final document, final validation result and number of iterations
executed. -/
def retryLoop (revalidate : CanonicalDocument → List VErr → CanonicalDocument) :
    Nat → CanonicalDocument → ValidationResult →
    CanonicalDocument × ValidationResult × Nat
  | 0, d, vr => (d, vr, 0)
  | fuel + 1, d, vr =>
      if vr.is_valid then (d, vr, 0)
      else
        let d' := revalidate d vr.errors
        let vr' := pipelineValidate d'
        let r := retryLoop revalidate fuel d' vr'
        (r.1, r.2.1, r.2.2 + 1)

/-- Embedding of `DocumentPipeline.process` (source: `pipeline.py` lines 78-187), with the
external collaborators abstracted: `has_content` is
`extraction_result.has_content`, `doc0` is the LLM extractor's canonical
document, and `revalidate` is the LLM collaborator used by the retry loop.
Returns the observable result and the number of retry iterations executed. -/
def processDoc (max_retries : Nat)
    (revalidate : CanonicalDocument → List VErr → CanonicalDocument)
    (has_content : Bool) (ocr_text : List Char) (doc0 : CanonicalDocument) :
    ProcResult × Nat :=
  if !has_content then
    ({ status := .invalid, confidence := "none", review_required := false }, 0)
  else
    let doc1 := alignTotalsWithOcr ocr_text doc0
    let vr := pipelineValidate doc1
    let r := retryLoop revalidate max_retries doc1 vr
    if r.2.1.is_valid then
      ({ status := .valid, confidence := "high", review_required := false }, r.2.2)
    else
      ({ status := .uncertain, confidence := "low", review_required := true }, r.2.2)

/-- Multiplicity of `p` in `n` (fueled helper). -/
def countFacAux (p : Nat) : Nat → Nat → Nat
  | 0, _ => 0
  | fuel + 1, n => if n ≠ 0 && n % p == 0 then countFacAux p fuel (n / p) + 1 else 0

/-- Largest `k` with `p ^ k ∣ n` (for `n ≠ 0`, `p ≥ 2`). -/
def countFac (p n : Nat) : Nat := countFacAux p n n

/-- Drop trailing occurrences of `c`. -/
def dropTrailing (c : Char) (l : List Char) : List Char :=
  ((l.reverse).dropWhile (fun x => x == c)).reverse

/-- Model of `str(Decimal(...).normalize())` as a function of the (decimal) rational
value: `normalize()` reduces to the minimal coefficient, so the string depends
only on the value.  Follows the `Decimal.__str__` rules: fixed-point notation
when the exponent is ≤ 0 and the adjusted exponent is ≥ -6, scientific
notation (`1E+2`, `1.5E+2`, `1E-7`) otherwise.  (On a non-decimal rational —
unreachable for values held in `Decimal` fields — the digit expansion below is
still total but meaningless.) -/
def decStr (q : ℚ) : String :=
  if q = 0 then "0"
  else
    let n := q.num.natAbs
    let d := q.den
    let a := countFac 2 d
    let b := countFac 5 d
    let m := max a b
    let c0 := n * 2 ^ (m - a) * 5 ^ (m - b)
    let digits0 := Nat.toDigits 10 c0
    let digits := dropTrailing '0' digits0
    let t := digits0.length - digits.length
    let e : ℤ := (t : ℤ) - (m : ℤ)
    let nd := digits.length
    let adj : ℤ := (nd : ℤ) - 1 + e
    let body :=
      if e ≤ 0 && adj ≥ -6 then
        if e = 0 then digits
        else
          let k := (-e).toNat
          if nd > k then (digits.take (nd - k)) ++ '.' :: (digits.drop (nd - k))
          else '0' :: '.' :: (List.replicate (k - nd) '0') ++ digits
      else
        let co := match digits with
          | [] => []
          | d0 :: [] => [d0]
          | d0 :: rest => d0 :: '.' :: rest
        co ++ 'E' :: ((if adj < 0 then ['-'] else ['+']) ++ Nat.toDigits 10 adj.natAbs)
    String.mk ((if q < 0 then ['-'] else []) ++ body)

/-- Model of `str(Decimal(...).quantize(Decimal("0.01")))`: the value rounded
half-to-even to 2 decimal places, rendered with exactly two fraction
digits. -/
def fixed2Str (q : ℚ) : String :=
  let c := roundHalfEven (q * 100)
  let n := c.natAbs
  let fracDigits :=
    if n % 100 < 10 then '0' :: Nat.toDigits 10 (n % 100) else Nat.toDigits 10 (n % 100)
  String.mk ((if c < 0 then ['-'] else []) ++ Nat.toDigits 10 (n / 100) ++ '.' :: fracDigits)

/-- Replace `.` by `,` (Python `s.replace('.', ',')`). -/
def dotToComma (s : String) : String :=
  String.mk (s.data.map (fun c => if c = '.' then ',' else c))

/-- Replace `,` by `.` (Python `s.replace(',', '.')`). -/
def commaToDot (s : String) : String :=
  String.mk (s.data.map (fun c => if c = ',' then '.' else c))

/-- A Python `dict[str, str]` as an association list (keys unique). -/
abbrev FieldMap := List (String × String)

/-- Python dict assignment `m[k] = v`: overwrites the entry for an existing
key in place, appends otherwise. -/
def dictInsert : FieldMap → String → String → FieldMap
  | [], k, v => [(k, v)]
  | (k', v') :: rest, k, v =>
      if k' == k then (k', v) :: rest else (k', v') :: dictInsert rest k v

/-- Python `m.get(k)`. -/
def dictGet : FieldMap → String → Option String
  | [], _ => none
  | (k', v') :: rest, k => if k' == k then some v' else dictGet rest k

/-- Python `if k not in m: m[k] = v` (used for word-fallback keys). -/
def dictInsertIfAbsent (m : FieldMap) (k v : String) : FieldMap :=
  if (dictGet m k).isSome then m else dictInsert m k v

/-- The textual variant keys that `add_number_variants` registers for a value,
in registration order (source: `pipeline.py` lines 438-456): the normalized
decimal string, its comma-decimal variant, the fixed-2-decimal variant and its
comma form (skipped when `quantize` would overflow the 28-digit context
precision and raise), and the bare-integer form for whole values. -/
def numberVariantKeys (v : ℚ) : List String :=
  let normalized := decStr v
  [normalized, dotToComma normalized] ++
    (if (roundHalfEven (v * 100)).natAbs < 10 ^ 28 then
      [fixed2Str v, dotToComma (fixed2Str v)]
    else []) ++
    (if v.den = 1 then [toString v.num] else [])

/-- Embedding of `add_number_variants` (source: `pipeline.py` lines 438-456): register each
variant key (in order) as mapping to the field path, overwriting colliding
entries as Python dict assignment does. -/
def addNumberVariants (value : Option ℚ) (field_path : String) (m : FieldMap) :
    FieldMap :=
  match value with
  | none => m
  | some v => (numberVariantKeys v).foldl (fun m k => dictInsert m k field_path) m

/-- Words of a string, split on whitespace runs, dropping empty pieces
(Python `str.split()`). -/
def splitWordsGo (cur : List Char) : List Char → List String
  | [] => if cur.isEmpty then [] else [String.mk cur.reverse]
  | c :: rest =>
      if c.isWhitespace then
        if cur.isEmpty then splitWordsGo [] rest
        else String.mk cur.reverse :: splitWordsGo [] rest
      else splitWordsGo (c :: cur) rest

/-- See `splitWordsGo`. -/
def splitWords (s : String) : List String := splitWordsGo [] s.data

/-- Python `word.strip('.,;:')`. -/
def stripPunct (w : String) : String :=
  let isP := fun c => c = '.' || c = ',' || c = ';' || c = ':'
  String.mk ((((w.data.dropWhile isP).reverse).dropWhile isP).reverse)

/-- Embedding of `add_text_variants` (source: `pipeline.py` lines 458-472): register the
stripped string, and for multi-word values each cleaned word of length > 3 as
a non-overwriting fallback key. -/
def addTextVariants (value : Option String) (field_path : String) (m : FieldMap) :
    FieldMap :=
  match value with
  | none => m
  | some s =>
      if s = "" then m
      else
        let stripped := charTrim s
        let m := dictInsert m stripped field_path
        let words := splitWords stripped
        if words.length > 1 then
          words.foldl (fun m w =>
            let clean_word := stripPunct w
            if clean_word.length > 3 then dictInsertIfAbsent m clean_word field_path
            else m) m
        else m

/-- Left-pad a digit string to width `w` with zeros. -/
def padZeros (w : Nat) (ds : List Char) : List Char :=
  List.replicate (w - ds.length) '0' ++ ds

/-- Model of `str(datetime.date)`: ISO `YYYY-MM-DD` with zero padding. -/
def dateStr (dt : DateT) : String :=
  String.mk (padZeros 4 (Nat.toDigits 10 dt.year) ++ '-' ::
    (padZeros 2 (Nat.toDigits 10 dt.month) ++ '-' :: padZeros 2 (Nat.toDigits 10 dt.day)))

/-- Replace `-` by `.` (date variant). -/
def dashToDot (s : String) : String :=
  String.mk (s.data.map (fun c => if c = '-' then '.' else c))

/-- Replace `-` by `/` (date variant). -/
def dashToSlash (s : String) : String :=
  String.mk (s.data.map (fun c => if c = '-' then '/' else c))

/-- Register the three separator variants of a date (source: `pipeline.py`
lines 487-497). -/
def addDateVariants (value : Option DateT) (field_path : String) (m : FieldMap) :
    FieldMap :=
  match value with
  | none => m
  | some dt =>
      let s := dateStr dt
      let m := dictInsert m s field_path
      let m := dictInsert m (dashToDot s) field_path
      dictInsert m (dashToSlash s) field_path

/-- Register one party's text fields (source: `pipeline.py` lines 503-510). -/
def addPartyFields (party : Party) (ptype : String) (m : FieldMap) : FieldMap :=
  let m := addTextVariants party.name (ptype ++ ".name") m
  let m := addTextVariants party.tax_id (ptype ++ ".tax_id") m
  match party.bank_iban with
  | some iban => if iban ≠ "" then addTextVariants (some iban) (ptype ++ ".bank.iban") m else m
  | none => m

/-- Register line item fields with their indices (source: `pipeline.py` lines
512-519). -/
def addLineItemFields : List LineItem → Nat → FieldMap → FieldMap
  | [], _, m => m
  | it :: rest, i, m =>
      let base := "line_items[" ++ toString i ++ "]"
      let m := addTextVariants it.description (base ++ ".description") m
      let m := addNumberVariants (some it.quantity) (base ++ ".quantity") m
      let m := addNumberVariants (some it.unit_price) (base ++ ".unit_price") m
      let m := addNumberVariants (some it.line_total) (base ++ ".line_total") m
      let m := addNumberVariants (some it.tax_amount) (base ++ ".tax_amount") m
      let m := addNumberVariants it.tax_rate (base ++ ".tax_rate") m
      addLineItemFields rest (i + 1) m

/-- The totals registrations of the build phase, in source order
(source: `pipeline.py` lines 474-481): total_tax, subtotal, total_amount,
amount_due. -/
def addTotalsFields (t : Totals) (m : FieldMap) : FieldMap :=
  let m := addNumberVariants (some t.total_tax) "totals.total_tax" m
  let m := addNumberVariants (some t.subtotal) "totals.subtotal" m
  let m := addNumberVariants (some t.total_amount) "totals.total_amount" m
  addNumberVariants t.amount_due "totals.amount_due" m

/-- The build phase of `_link_bounding_boxes_to_fields`
(source: `pipeline.py` lines 434-521). -/
def buildFieldMap (doc : CanonicalDocument) : FieldMap :=
  let m : FieldMap := []
  let m := addTotalsFields doc.totals m
  let m := addTextVariants doc.document.number "document.number" m
  let m := addDateVariants doc.document.issue_date "document.issue_date" m
  let m := addDateVariants doc.document.due_date "document.due_date" m
  let m :=
    if doc.document.currency ≠ "" then
      dictInsert m doc.document.currency "document.currency"
    else m
  let m := addPartyFields doc.supplier "supplier" m
  let m := addPartyFields doc.customer "customer" m
  addLineItemFields doc.line_items 0 m

/-- Embedding of `DocumentPipeline._normalize_number_text` (source: `pipeline.py` lines
568-587): strip currency symbols and whitespace, resolve the comma as decimal
or thousands separator, then reparse as a `Decimal` and render normalized;
return the original text when the parse fails. -/
def normalizeNumberText (text : String) : String :=
  let cleaned := text.data.filter (fun c =>
    !(c = '€' || c = '$' || c = '£' || c = '¥' || c.isWhitespace))
  let cleaned :=
    if cleaned.contains ',' && !cleaned.contains '.' then
      cleaned.map (fun c => if c = ',' then '.' else c)
    else if cleaned.contains ',' && cleaned.contains '.' then
      cleaned.filter (fun c => c ≠ ',')
    else cleaned
  match pyDecimalParse cleaned with
  | some q => decStr q
  | none => text

/-- The `BoundingBoxModel`, restricted to the fields the linking logic reads and
writes (geometry and confidence are carried through unchanged). -/
structure BoundingBox where
  text : String
  field_path : Option String := none
  deriving DecidableEq, Repr

/-- The match phase of `_link_bounding_boxes_to_fields` (source:
`pipeline.py` lines 523-556): per box, look up the normalized text, the raw
text and the two separator-swapped forms, first hit wins; a field path already
claimed by an earlier box is not reused. -/
def linkBoxesGo (m : FieldMap) : List BoundingBox → List String → List BoundingBox
  | [], _ => []
  | box :: rest, used_fields =>
      let box_text := charTrim box.text
      let normalized_text := normalizeNumberText box_text
      let field_path :=
        ((dictGet m normalized_text).orElse (fun _ => dictGet m box_text)).orElse
          (fun _ =>
            (dictGet m (dotToComma box_text)).orElse
              (fun _ => dictGet m (commaToDot box_text)))
      match field_path with
      | some p =>
          if p ∈ used_fields then
            { text := box.text, field_path := none } :: linkBoxesGo m rest used_fields
          else
            { text := box.text, field_path := some p } ::
              linkBoxesGo m rest (p :: used_fields)
      | none => { text := box.text, field_path := none } :: linkBoxesGo m rest used_fields

/-- Embedding of `DocumentPipeline._link_bounding_boxes_to_fields` (source: `pipeline.py`
lines 421-556). -/
def linkBoundingBoxesToFields (raw_boxes : List BoundingBox)
    (doc : CanonicalDocument) : List BoundingBox :=
  linkBoxesGo (buildFieldMap doc) raw_boxes []

/-- The runtime-typed Python values reachable from a stored
`CanonicalDocument` during reverse-sync field updates: pydantic model objects
(attribute maps), lists, strings, `Decimal`s, `date`s, ints, floats and
`None`.  Float values are carried as exact rationals (only the success or
failure of `float(...)` parsing matters to the claims, not binary rounding).
Object aliasing (the same mutable object reachable twice) is not modelled;
pydantic documents are trees. -/
inductive PyVal where
  | vNone
  | vStr (s : String)
  | vInt (n : ℤ)
  | vFloat (x : ℚ)
  | vDec (q : ℚ)
  | vDate (dt : DateT)
  | obj (fields : List (String × PyVal))
  | list (elems : List PyVal)

/-- The exception classes `_update_document_field` can let escape. -/
inductive UpdExn where
  | indexError
  | typeError
  | attrError
  deriving DecidableEq, Repr

/-- First binding of `name` in an attribute map. -/
def lookupField : List (String × PyVal) → String → Option PyVal
  | [], _ => none
  | (k, v) :: rest, name => if k == name then some v else lookupField rest name

/-- Replace the first binding of `name`. -/
def setFirstField : List (String × PyVal) → String → PyVal → List (String × PyVal)
  | [], _, _ => []
  | (k, v) :: rest, name, nv =>
      if k == name then (k, nv) :: rest else (k, v) :: setFirstField rest name nv

/-- Model of `getattr(obj, name, None)` (missing attributes and non-objects give
`none`). -/
def getattrPy : PyVal → String → Option PyVal
  | .obj fields, name => lookupField fields name
  | _, _ => none

/-- Model of `setattr(obj, key, v)`: updates an existing pydantic field; assignment of
an unknown field name raises `ValueError`, which the caller's `except` clause
catches (so the object is returned unchanged); `setattr` on a non-model
object (str, int, list, `Decimal`, `date`, `None`) raises `AttributeError`,
which the caller does not catch. -/
def setattrPy (v : PyVal) (k : String) (nv : PyVal) : Except UpdExn PyVal :=
  match v with
  | .obj fields =>
      if (lookupField fields k).isSome then pure (.obj (setFirstField fields k nv))
      else pure v
  | _ => throw .attrError

/-- Python `part.isdigit()`. -/
def isDigitStr (s : String) : Bool := !s.isEmpty && s.data.all Char.isDigit

/-- Digit string to `Nat`. -/
def strToNat (s : String) : Nat := digitsToNat s.data

/-- Python `re.split(r'\.|\[|\]', field_path)` keeping empty pieces. -/
def splitPathGo (cur : List Char) : List Char → List String
  | [] => [String.mk cur.reverse]
  | c :: rest =>
      if c = '.' || c = '[' || c = ']' then
        String.mk cur.reverse :: splitPathGo [] rest
      else splitPathGo (c :: cur) rest

/-- Python `[p for p in re.split(r'\.|\[|\]', field_path) if p]`. -/
def splitPath (s : String) : List String :=
  (splitPathGo [] s.data).filter (fun p => p ≠ "")

/-- Longest leading run of digits possibly separated by single underscores
(the digit grammar shared by Python `int(...)` and `float(...)` literals);
returns the digits and the unconsumed rest. -/
def takeUDigitsGo (acc : List Char) : List Char → List Char × List Char
  | '_' :: d :: rest =>
      if d.isDigit then takeUDigitsGo (d :: acc) rest else (acc.reverse, '_' :: d :: rest)
  | d :: rest => if d.isDigit then takeUDigitsGo (d :: acc) rest else (acc.reverse, d :: rest)
  | [] => (acc.reverse, [])

/-- See `takeUDigitsGo`; fails (empty digits) when the input does not start
with a digit. -/
def takeUDigits (cs : List Char) : List Char × List Char :=
  match cs with
  | c :: rest => if c.isDigit then takeUDigitsGo [c] rest else ([], cs)
  | [] => ([], [])

/-- Python `int(str)`: optional surrounding whitespace, optional sign,
underscore-grouped digits and nothing else (`none` models the raised
`ValueError`). -/
def pyIntParse (s : String) : Option ℤ :=
  let cs := (((s.data.dropWhile Char.isWhitespace).reverse).dropWhile Char.isWhitespace).reverse
  let signed : Bool × List Char :=
    match cs with
    | '+' :: r => (false, r)
    | '-' :: r => (true, r)
    | _ => (false, cs)
  let p := takeUDigits signed.2
  if p.1.isEmpty || !p.2.isEmpty then none
  else some (if signed.1 then -(digitsToNat p.1 : ℤ) else (digitsToNat p.1 : ℤ))

/-- Python `float(str)` literal acceptance (sign, underscore-grouped digits,
optional point and exponent); the value is the exact rational of the literal
(binary rounding not modelled); `inf`/`nan` forms are not modelled. -/
def pyFloatParse (s : String) : Option ℚ :=
  let cs := (((s.data.dropWhile Char.isWhitespace).reverse).dropWhile Char.isWhitespace).reverse
  let signed : Bool × List Char :=
    match cs with
    | '+' :: r => (false, r)
    | '-' :: r => (true, r)
    | _ => (false, cs)
  let pm := takeUDigits signed.2
  let fracPart : List Char × List Char :=
    match pm.2 with
    | '.' :: r => takeUDigits r
    | _ => ([], pm.2)
  let hadPoint : Bool := match pm.2 with | '.' :: _ => true | _ => false
  if pm.1.isEmpty && fracPart.1.isEmpty then none
  else
    let rest := if hadPoint then fracPart.2 else pm.2
    let expPart : Option ℤ :=
      match rest with
      | [] => some 0
      | e :: r =>
          if e == 'e' || e == 'E' then
            let esigned : Bool × List Char :=
              match r with
              | '+' :: r2 => (false, r2)
              | '-' :: r2 => (true, r2)
              | _ => (false, r)
            let pe := takeUDigits esigned.2
            if pe.1.isEmpty || !pe.2.isEmpty then none
            else some (if esigned.1 then -(digitsToNat pe.1 : ℤ) else (digitsToNat pe.1 : ℤ))
          else none
    match expPart with
    | none => none
    | some ex =>
        let mant : ℚ := (digitsToNat (pm.1 ++ fracPart.1) : ℚ) / 10 ^ fracPart.1.length
        let v := mant * (10 : ℚ) ^ ex
        some (if signed.1 then -v else v)

/-- Gregorian leap year. -/
def isLeap (y : Nat) : Bool := y % 4 = 0 && (y % 100 ≠ 0 || y % 400 = 0)

/-- Days in a month. -/
def daysInMonth (y m : Nat) : Nat :=
  if m = 2 then (if isLeap y then 29 else 28)
  else if m = 4 || m = 6 || m = 9 || m = 11 then 30
  else 31

/-- Validity of `datetime.date(y, m, d)` (raises `ValueError` otherwise). -/
def isValidDateZ (y mo d : ℤ) : Bool :=
  1 ≤ y && y ≤ 9999 && 1 ≤ mo && mo ≤ 12 && 1 ≤ d &&
    d ≤ (daysInMonth y.toNat mo.toNat : ℤ)

/-- The decimal-field cleaning of `_update_document_field` (source:
`documents.py` lines 467-476): keep digits, `.`, `,`, `-`, then resolve the
comma as decimal or thousands separator. -/
def cleanDecimalText (value : String) : List Char :=
  let cleaned := value.data.filter (fun c => c.isDigit || c = '.' || c = ',' || c = '-')
  if cleaned.contains ',' && !cleaned.contains '.' then
    cleaned.map (fun c => if c = ',' then '.' else c)
  else if cleaned.contains ',' && cleaned.contains '.' then
    cleaned.filter (fun c => c ≠ ',')
  else cleaned

/-- Python `value.replace('.', '-').replace('/', '-')` (date cleaning). -/
def toDashes (s : String) : String :=
  String.mk (s.data.map (fun c => if c = '.' || c = '/' then '-' else c))

/-- Python `value.split('-')`, keeping empty pieces. -/
def splitDashGo (cur : List Char) : List Char → List String
  | [] => [String.mk cur.reverse]
  | c :: rest =>
      if c = '-' then String.mk cur.reverse :: splitDashGo [] rest
      else splitDashGo (c :: cur) rest

/-- See `splitDashGo`. -/
def splitDash (s : String) : List String := splitDashGo [] s.data

/-- The three-part date assembly of `_update_document_field` (source:
`documents.py` lines 481-487): the group of length 4 is the year (year-first
when `parts[0]` has 4 characters, year-last otherwise); `int(...)` or
`date(...)` failures give `none` (a caught `ValueError`). -/
def dateFromParts (p0 p1 p2 : String) : Option DateT :=
  if p0.length = 4 then
    match pyIntParse p0, pyIntParse p1, pyIntParse p2 with
    | some y, some mo, some d =>
        if isValidDateZ y mo d then some ⟨y.toNat, mo.toNat, d.toNat⟩ else none
    | _, _, _ => none
  else
    match pyIntParse p2, pyIntParse p1, pyIntParse p0 with
    | some y, some mo, some d =>
        if isValidDateZ y mo d then some ⟨y.toNat, mo.toNat, d.toNat⟩ else none
    | _, _, _ => none

/-- The typed conversion and assignment at the end of
`_update_document_field` (source: `documents.py` lines 457-501).  Parse
failures (`InvalidOperation`, `ValueError`) are caught there, leaving the
object unchanged; `AttributeError` from `setattr` on a non-model object is
not caught. -/
def convertAndSet (v : PyVal) (final_key value : String) : Except UpdExn PyVal :=
  if isDigitStr final_key then pure v
  else
    match getattrPy v final_key with
    | some (.vDec _) =>
        match pyDecimalParse (cleanDecimalText value) with
        | some q => setattrPy v final_key (.vDec q)
        | none => pure v
    | some (.vDate _) =>
        match splitDash (toDashes value) with
        | [p0, p1, p2] =>
            match dateFromParts p0 p1 p2 with
            | some dt => setattrPy v final_key (.vDate dt)
            | none => pure v
        | _ => setattrPy v final_key (.vStr value)
    | some (.vInt _) =>
        match pyIntParse value with
        | some n => setattrPy v final_key (.vInt n)
        | none => pure v
    | some (.vFloat _) =>
        match pyFloatParse value with
        | some x => setattrPy v final_key (.vFloat x)
        | none => pure v
    | _ => setattrPy v final_key (.vStr value)

/-- The traversal-and-assign body of `_update_document_field` (source:
`documents.py` lines 447-501) over the split path parts.  Traversal into a
missing or `None` attribute returns the document unchanged; `obj[int(part)]`
raises `IndexError` when the index is out of range and `TypeError` when the
object is not subscriptable; indexing a string yields a fresh one-character
string, so any update below it is discarded (strings are immutable and the
temporary is dropped, as in Python). -/
def updAt : PyVal → List String → String → Except UpdExn PyVal
  | _, [], _ => throw .indexError
  | v, [final_key], value => convertAndSet v final_key value
  | v, part :: p2 :: rest, value =>
      if isDigitStr part then
        match v with
        | .list l =>
            match l[strToNat part]? with
            | none => throw .indexError
            | some child => do
                let child' ← updAt child (p2 :: rest) value
                pure (.list (l.set (strToNat part) child'))
        | .vStr s =>
            match s.data[strToNat part]? with
            | none => throw .indexError
            | some c => do
                let _ ← updAt (.vStr (String.mk [c])) (p2 :: rest) value
                pure (.vStr s)
        | _ => throw .typeError
      else
        match getattrPy v part with
        | none => pure v
        | some .vNone => pure v
        | some child => do
            let child' ← updAt child (p2 :: rest) value
            match v with
            | .obj fields => pure (.obj (setFirstField fields part child'))
            | _ => pure v

/-- Embedding of `_update_document_field` (source: `documents.py` lines 428-501).  An
empty parts list makes `parts[-1]` raise `IndexError`. -/
def updateDocumentField (doc : PyVal) (field_path value : String) :
    Except UpdExn PyVal :=
  match splitPath field_path with
  | [] => throw .indexError
  | p :: ps => updAt doc (p :: ps) value

/-- The current value `getattr(obj, final_key, None)` that
`_update_document_field` would inspect after traversing `parts`, or `none`
when traversal stops early, fails, or the final key is a digit. -/
def currentAt : PyVal → List String → Option PyVal
  | _, [] => none
  | v, [final_key] => if isDigitStr final_key then none else getattrPy v final_key
  | v, part :: p2 :: rest =>
      if isDigitStr part then
        match v with
        | .list l =>
            match l[strToNat part]? with
            | some child => currentAt child (p2 :: rest)
            | none => none
        | .vStr s =>
            match s.data[strToNat part]? with
            | some c => currentAt (.vStr (String.mk [c])) (p2 :: rest)
            | none => none
        | _ => none
      else
        match getattrPy v part with
        | none => none
        | some .vNone => none
        | some child => currentAt child (p2 :: rest)

/-! ## Helper lemmas -/

theorem is_close_self (a : ℚ) : MathValidator.is_close a a = true := by
  simp [MathValidator.is_close, MathValidator.ABSOLUTE_TOLERANCE]
  norm_num

theorem merge_invariant {r s : ValidationResult}
    (hr : r.is_valid = r.errors.isEmpty) (hs : s.is_valid = s.errors.isEmpty) :
    (r.merge s).is_valid = (r.merge s).errors.isEmpty := by
  simp only [ValidationResult.merge, hr, hs]
  cases r.errors <;> cases s.errors <;> simp

theorem validate_line_items_inv (d : CanonicalDocument) (us : Bool) :
    (MathValidator.validate_line_items d us).is_valid =
      (MathValidator.validate_line_items d us).errors.isEmpty := rfl

theorem validate_subtotal_inv (d : CanonicalDocument) (us : Bool) :
    (MathValidator.validate_subtotal d us).is_valid =
      (MathValidator.validate_subtotal d us).errors.isEmpty := by
  rfl

theorem validate_us_style_tax_inv (d : CanonicalDocument) :
    (MathValidator.validate_us_style_tax d).is_valid =
      (MathValidator.validate_us_style_tax d).errors.isEmpty := rfl

theorem validate_eu_style_tax_inv (d : CanonicalDocument) :
    (MathValidator.validate_eu_style_tax d).is_valid =
      (MathValidator.validate_eu_style_tax d).errors.isEmpty := rfl

theorem validate_grand_total_inv (d : CanonicalDocument) (us : Bool) :
    (MathValidator.validate_grand_total d us).is_valid =
      (MathValidator.validate_grand_total d us).errors.isEmpty := rfl

theorem math_validate_inv (d : CanonicalDocument) :
    (MathValidator.validate d).is_valid = (MathValidator.validate d).errors.isEmpty := by
  unfold MathValidator.validate
  refine merge_invariant (merge_invariant (merge_invariant (merge_invariant rfl
    (validate_line_items_inv d _)) (validate_subtotal_inv d _)) ?_)
    (validate_grand_total_inv d _)
  split_ifs
  · exact validate_us_style_tax_inv d
  · exact validate_eu_style_tax_inv d

theorem validate_vat_ids_inv (d : CanonicalDocument) :
    (TaxValidator.validate_vat_ids d).is_valid =
      (TaxValidator.validate_vat_ids d).errors.isEmpty := rfl

theorem validate_tax_rates_inv (d : CanonicalDocument) :
    (TaxValidator.validate_tax_rates d).is_valid =
      (TaxValidator.validate_tax_rates d).errors.isEmpty := by
  unfold TaxValidator.validate_tax_rates
  cases d.supplier.address_country
  · rfl
  · simp only []
    split_ifs <;> rfl

theorem tax_validate_inv (d : CanonicalDocument) :
    (TaxValidator.validate d).is_valid = (TaxValidator.validate d).errors.isEmpty := by
  unfold TaxValidator.validate
  exact merge_invariant (merge_invariant rfl (validate_vat_ids_inv d))
    (validate_tax_rates_inv d)

/-! ## Claim theorems -/

/-- C3: the closeness test used by every validation comparison judges `a` and
`b` close if and only if `|a − b| ≤ 0.02` or `|a − b| / max(|a|, |b|) ≤ 1%`,
with the tolerance constants exactly `0.02` and `1%`. -/
theorem C3_is_close_iff (a b : ℚ) :
    (MathValidator.is_close a b = true ↔
      (|a - b| ≤ 2/100 ∨ |a - b| / max |a| |b| ≤ 1/100)) ∧
    MathValidator.ABSOLUTE_TOLERANCE = 2/100 ∧
    MathValidator.RELATIVE_TOLERANCE = 1/100 := by
  refine ⟨?_, rfl, rfl⟩
  unfold MathValidator.is_close
  simp only [MathValidator.ABSOLUTE_TOLERANCE, MathValidator.RELATIVE_TOLERANCE]
  by_cases h1 : |a - b| ≤ 2/100
  · simp [h1]
  · simp only [h1, if_false]
    by_cases h2 : max |a| |b| > 0
    · simp [h2, h1]
    · have hmax : max |a| |b| = 0 :=
        le_antisymm (not_lt.1 h2) (le_max_iff.2 (Or.inl (abs_nonneg a)))
      simp only [h2, if_false, hmax, div_zero]
      simp [h1]

/-- C10: every `ValidationResult` produced by `MathValidator.validate` or
`TaxValidator.validate`, and any merge of two results satisfying the
invariant, has `is_valid` equal to emptiness of the error list; warnings never
influence `is_valid`. -/
theorem C10_validation_result_invariant (d₁ d₂ : CanonicalDocument) :
    ((MathValidator.validate d₁).is_valid =
      (MathValidator.validate d₁).errors.isEmpty) ∧
    ((TaxValidator.validate d₂).is_valid =
      (TaxValidator.validate d₂).errors.isEmpty) ∧
    (∀ r s : ValidationResult, r.is_valid = r.errors.isEmpty →
      s.is_valid = s.errors.isEmpty →
      (r.merge s).is_valid = (r.merge s).errors.isEmpty) :=
  ⟨math_validate_inv d₁, tax_validate_inv d₂, fun _ _ hr hs => merge_invariant hr hs⟩

theorem retryLoop_count_le
    (rev : CanonicalDocument → List VErr → CanonicalDocument) :
    ∀ (n : Nat) (d : CanonicalDocument) (vr : ValidationResult),
      (retryLoop rev n d vr).2.2 ≤ n := by
  intro n
  induction n with
  | zero => intro d vr; simp [retryLoop]
  | succ k ih =>
      intro d vr
      simp only [retryLoop]
      split_ifs
      · simp
      · simpa using Nat.succ_le_succ (ih _ _)

theorem retryLoop_exhausts
    (rev : CanonicalDocument → List VErr → CanonicalDocument)
    (hrev : ∀ d e, (pipelineValidate (rev d e)).is_valid = false) :
    ∀ (n : Nat) (d : CanonicalDocument) (vr : ValidationResult),
      vr.is_valid = false →
      (retryLoop rev n d vr).2.2 = n ∧
        (retryLoop rev n d vr).2.1.is_valid = false := by
  intro n
  induction n with
  | zero => intro d vr h; exact ⟨rfl, h⟩
  | succ k ih =>
      intro d vr h
      simp only [retryLoop, h]
      have h2 := ih (rev d vr.errors) (pipelineValidate (rev d vr.errors)) (hrev _ _)
      simp [h2.1, h2.2]

/-- C2: when the initial (post-reconciliation) document fails validation and
the LLM collaborator never produces a document that validates, the retry loop
runs exactly `max_retries` iterations, the pipeline terminates with status
`uncertain` and `review_required = true`; and the loop never runs more than
the configured maximum of iterations. -/
theorem C2_retry_termination (m : Nat)
    (rev : CanonicalDocument → List VErr → CanonicalDocument)
    (text : List Char) (doc0 : CanonicalDocument)
    (h0 : (pipelineValidate (alignTotalsWithOcr text doc0)).is_valid = false)
    (hrev : ∀ d e, (pipelineValidate (rev d e)).is_valid = false) :
    (processDoc m rev true text doc0).2 = m ∧
    (processDoc m rev true text doc0).1.status = .uncertain ∧
    (processDoc m rev true text doc0).1.review_required = true ∧
    ∀ (rev' : CanonicalDocument → List VErr → CanonicalDocument) (n : Nat)
      (d : CanonicalDocument) (vr : ValidationResult),
      (retryLoop rev' n d vr).2.2 ≤ n := by
  have h := retryLoop_exhausts rev hrev m (alignTotalsWithOcr text doc0) _ h0
  unfold processDoc
  simp only [Bool.not_true, if_neg (by simp : ¬(false = true))]
  rw [if_neg (by simp [h.2])]
  exact ⟨h.1, rfl, rfl, fun rev' n d vr => retryLoop_count_le rev' n d vr⟩

/-- A document that never validates: its grand total is 100 while subtotal and
tax are 0. -/
def uncorrectableDoc : CanonicalDocument := { totals := { total_amount := 100 } }

theorem C2_retry_termination_witness :
    (processDoc 3 (fun _ _ => uncorrectableDoc) true [] uncorrectableDoc).2 = 3 ∧
    (processDoc 3 (fun _ _ => uncorrectableDoc) true [] uncorrectableDoc).1.status
      = .uncertain ∧
    (processDoc 3 (fun _ _ => uncorrectableDoc) true [] uncorrectableDoc).1.review_required
      = true := by
  have hbad : (pipelineValidate uncorrectableDoc).is_valid = false := by decide
  have h := C2_retry_termination 3 (fun _ _ => uncorrectableDoc) [] uncorrectableDoc
    hbad (fun _ _ => hbad)
  exact ⟨h.1, h.2.1, h.2.2.1⟩

/-- C6 counterexample: with an LLM collaborator that corrects the document on
the first retry, the pipeline returns confidence `"high"` even though one
retry was needed — refuting the claim that `"high"` is only given when zero
retries were needed. -/
theorem C6_confidence_counterexample :
    (processDoc 3 (fun _ _ => ({} : CanonicalDocument)) true [] uncorrectableDoc).1.confidence
      = "high" ∧
    (processDoc 3 (fun _ _ => ({} : CanonicalDocument)) true [] uncorrectableDoc).2 = 1 := by
  decide

/-- C6 amended: the confidence label is `"none"` (with status `invalid`) when
extraction fails; otherwise it is `"high"` exactly when the final result is
valid — regardless of how many retries were needed — and `"low"` exactly when
the document finalizes uncertain. -/
theorem C6_confidence_amended (m : Nat)
    (rev : CanonicalDocument → List VErr → CanonicalDocument)
    (text : List Char) (d0 : CanonicalDocument) :
    ((processDoc m rev false text d0).1.confidence = "none" ∧
      (processDoc m rev false text d0).1.status = .invalid) ∧
    ((processDoc m rev true text d0).1.confidence = "high" ↔
      (processDoc m rev true text d0).1.status = .valid) ∧
    ((processDoc m rev true text d0).1.confidence = "low" ↔
      (processDoc m rev true text d0).1.status = .uncertain) := by
  refine ⟨⟨rfl, rfl⟩, ?_⟩
  unfold processDoc
  simp only [Bool.not_true, if_neg (by simp : ¬(false = true))]
  split_ifs
  · simp
  · simp

theorem updateLastItem_eq : ∀ (l : List LineItem) (diff : ℚ), l ≠ [] →
    updateLastItem l diff = l.dropLast ++
      (match l.getLast? with
       | some last => [adjustLastItem last diff]
       | none => []) := by
  intro l
  induction l with
  | nil => intro diff h; exact absurd rfl h
  | cons a t ih =>
      intro diff _
      cases t with
      | nil => rfl
      | cons b t2 =>
          simp only [updateLastItem]
          rw [ih diff (by simp)]
          simp [List.getLast?]

/-- C7: reconciliation is idempotent — a second call with the same raw text
leaves the document unchanged, because one application already brings
`total_amount` within tolerance of the printed total. -/
theorem C7_reconcile_idempotent (text : List Char) (doc : CanonicalDocument) :
    alignTotalsWithOcr text (alignTotalsWithOcr text doc) =
      alignTotalsWithOcr text doc := by
  by_cases he : text.isEmpty
  · simp [alignTotalsWithOcr, he]
  · rcases hm : listMax (totalCandidates text) with _ | M
    · simp [alignTotalsWithOcr, he, hm]
    · by_cases hc : |doc.totals.total_amount - M| ≤ 2/100
      · have h1 : alignTotalsWithOcr text doc = doc := by
          simp [alignTotalsWithOcr, he, hm, hc]
        rw [h1]
        exact h1
      · have h2 : (alignTotalsWithOcr text doc).totals.total_amount = M := by
          simp only [alignTotalsWithOcr, he, hm, if_neg hc, Bool.false_eq_true,
            if_false]
          split_ifs <;> rfl
        have key : ∀ d2 : CanonicalDocument, d2.totals.total_amount = M →
            alignTotalsWithOcr text d2 = d2 := by
          intro d2 hd2
          have hle : |d2.totals.total_amount - M| ≤ 2/100 := by
            rw [hd2, sub_self, abs_zero]
            norm_num
          simp [alignTotalsWithOcr, he, hm, hle]
        exact key _ h2

/-- C4: when the printed-total candidates of the raw text have maximum `M` and
the document's `total_amount` is off by more than 0.02, reconciliation sets
`total_amount = M`, `amount_due = M` and `subtotal = M − total_tax`; and when
line items exist whose summed `line_total` differs from `M` by more than the
tolerance, the difference is added to the last line item's `line_total`, with
its `quantity` recomputed (rounded to 4 decimal places) when `unit_price` is
non-zero. -/
theorem C4_reconcile_overwrites (text : List Char) (doc : CanonicalDocument)
    (M : ℚ) (hM : listMax (totalCandidates text) = some M)
    (hfar : ¬ |doc.totals.total_amount - M| ≤ 2/100) :
    (alignTotalsWithOcr text doc).totals.total_amount = M ∧
    (alignTotalsWithOcr text doc).totals.amount_due = some M ∧
    (alignTotalsWithOcr text doc).totals.subtotal = M - doc.totals.total_tax ∧
    (doc.line_items ≠ [] →
      ¬ |M - MathValidator.sumLineTotals doc.line_items| ≤ 2/100 →
      (alignTotalsWithOcr text doc).line_items =
        doc.line_items.dropLast ++
          (match doc.line_items.getLast? with
           | some last =>
               [adjustLastItem last (M - MathValidator.sumLineTotals doc.line_items)]
           | none => [])) := by
  have hne : ¬ text.isEmpty = true := by
    intro he
    have hcand : totalCandidates text = [] := by
      simp [totalCandidates, splitlines, he, candidatesFromLines]
    rw [hcand] at hM
    exact Option.noConfusion hM
  simp only [alignTotalsWithOcr, hne, hM, if_neg hfar, Bool.false_eq_true, if_false]
  by_cases hitems : doc.line_items.isEmpty
  · refine ⟨by simp [hitems], by simp [hitems], by simp [hitems], fun hne2 _ => ?_⟩
    exact absurd (List.isEmpty_iff.1 hitems) hne2
  · by_cases hdiff : |M - MathValidator.sumLineTotals doc.line_items| ≤ 2/100
    · exact ⟨by simp [hitems, hdiff], by simp [hitems, hdiff],
        by simp [hitems, hdiff], fun _ h => absurd hdiff h⟩
    · refine ⟨by simp [hitems, hdiff], by simp [hitems, hdiff],
        by simp [hitems, hdiff], fun hne2 _ => ?_⟩
      simp only [hitems, Bool.false_eq_true, if_false, hdiff]
      exact updateLastItem_eq doc.line_items _ hne2

/-- The decimal-misplacement fixture: OCR text shows `Total: 86.99` while the
document carries `8.699`. -/
def reconcileWitnessItem : LineItem :=
  { line_number := 1, quantity := 8699/1000, unit_price := 1, line_total := 8699/1000 }

/-- See `reconcileWitnessItem`. -/
def reconcileWitnessDoc : CanonicalDocument :=
  { line_items := [reconcileWitnessItem], totals := { total_amount := 8699/1000 } }

theorem C4_reconcile_overwrites_witness :
    listMax (totalCandidates "Total: 86.99".data) = some (8699/100) ∧
    ¬ |reconcileWitnessDoc.totals.total_amount - 8699/100| ≤ 2/100 ∧
    (alignTotalsWithOcr "Total: 86.99".data reconcileWitnessDoc).totals.total_amount
      = 8699/100 ∧
    (alignTotalsWithOcr "Total: 86.99".data reconcileWitnessDoc).totals.amount_due
      = some (8699/100) ∧
    (alignTotalsWithOcr "Total: 86.99".data reconcileWitnessDoc).line_items =
      reconcileWitnessDoc.line_items.dropLast ++
        (match reconcileWitnessDoc.line_items.getLast? with
         | some last =>
             [adjustLastItem last
               (8699/100 - MathValidator.sumLineTotals reconcileWitnessDoc.line_items)]
         | none => []) := by
  have h := C4_reconcile_overwrites "Total: 86.99".data reconcileWitnessDoc
    (8699/100) (by decide) (by decide)
  exact ⟨by decide, by decide, h.1, h.2.1, h.2.2.2 (by decide) (by decide)⟩

theorem optTruthy_eq_false {o : Option ℚ} (h : o.getD 0 = 0) :
    optTruthy o = false := by
  cases o with
  | none => rfl
  | some v =>
      simp only [Option.getD_some] at h
      simp [optTruthy, h]

theorem expectedGross_no_discount (it : LineItem)
    (hp : it.discount_percent.getD 0 = 0) (ha : it.discount_amount.getD 0 = 0) :
    MathValidator.expectedGross it = it.quantity * it.unit_price := by
  simp [MathValidator.expectedGross, optTruthy_eq_false hp, optTruthy_eq_false ha]

theorem lineItemCheck_no_errors_of_zero_tax (us : Bool) (it : LineItem)
    (h3 : it.quantity * it.unit_price + it.tax_amount = it.line_total)
    (hp : it.discount_percent.getD 0 = 0) (ha : it.discount_amount.getD 0 = 0)
    (htax : it.tax_amount = 0) :
    (MathValidator.lineItemCheck us it).1 = [] := by
  have hlt : it.line_total = MathValidator.expectedGross it := by
    rw [expectedGross_no_discount it hp ha, ← h3, htax, add_zero]
  have hclose : MathValidator.is_close it.line_total
      (MathValidator.expectedGross it) = true := by
    rw [hlt]; exact is_close_self _
  cases us <;> simp [MathValidator.lineItemCheck, hclose]

theorem lineItemCheck_eu_no_errors (it : LineItem) :
    (MathValidator.lineItemCheck false it).1 = [] := by
  unfold MathValidator.lineItemCheck
  simp only [Bool.false_eq_true, if_false]
  split_ifs
  · rfl
  · cases it.tax_rate
    · rfl
    · simp only []
      split_ifs <;> rfl

theorem us_style_imp_zero_tax (d : CanonicalDocument)
    (h7 : (∀ it ∈ d.line_items, it.tax_amount = 0) ∨
      MathValidator.is_close (MathValidator.sumLineTotals d.line_items)
        d.totals.subtotal = false)
    (hus : MathValidator.is_us_style_invoice d = true) :
    ∀ it ∈ d.line_items, it.tax_amount = 0 := by
  unfold MathValidator.is_us_style_invoice at hus
  split_ifs at hus with hempty hzero hclose
  · intro it hit
    rw [Bool.and_eq_true] at hzero
    have := List.all_eq_true.1 hzero.1 it hit
    exact eq_of_beq this
  · rcases h7 with h | h
    · exact h
    · rw [h] at hclose
      exact absurd hclose (by simp)

theorem validate_grand_total_no_errors (d : CanonicalDocument) (us : Bool)
    (h1 : d.totals.subtotal + d.totals.total_tax = d.totals.total_amount)
    (h2 : d.totals.amount_due = some d.totals.total_amount)
    (hship : d.totals.shipping_amount.getD 0 = 0)
    (hround : d.totals.rounding_amount.getD 0 = 0) :
    (MathValidator.validate_grand_total d us).errors = [] := by
  have het : MathValidator.expectedTotal d.totals = d.totals.total_amount := by
    simp [MathValidator.expectedTotal, optTruthy_eq_false hship,
      optTruthy_eq_false hround, h1]
  unfold MathValidator.validate_grand_total
  simp only [het, h2, is_close_self, Bool.not_true, Bool.false_eq_true, if_false]
  split_ifs <;> rfl

/-- A line item with a 50% discount whose stated total satisfies
`quantity × unit_price + tax_amount = line_total` but not the discounted
expectation. -/
def discountedItem : LineItem :=
  { line_number := 1, quantity := 1, unit_price := 100,
    discount_percent := some 50, line_total := 100 }

/-- See `discountedItem`. -/
def discountedDoc : CanonicalDocument :=
  { line_items := [discountedItem],
    totals := { subtotal := 100, total_amount := 100, amount_due := some 100 } }

/-- C1 counterexample: `discountedDoc` satisfies all three equalities of the
claim (`subtotal + total_tax = total_amount`, `amount_due = total_amount`,
and `quantity × unit_price + tax_amount = line_total` for every line item),
yet `MathValidator.validate` reports an error: the discount makes the
US-style line check fail. -/
theorem C1_counterexample :
    (discountedDoc.totals.subtotal + discountedDoc.totals.total_tax =
      discountedDoc.totals.total_amount) ∧
    discountedDoc.totals.amount_due = some discountedDoc.totals.total_amount ∧
    discountedDoc.line_items = [discountedItem] ∧
    (discountedItem.quantity * discountedItem.unit_price +
      discountedItem.tax_amount = discountedItem.line_total) ∧
    (MathValidator.validate discountedDoc).is_valid = false ∧
    (MathValidator.validate discountedDoc).errors ≠ [] := by decide

/-- C1 amended: for documents with no (non-zero) discounts, shipping or
rounding, an empty tax breakdown, exact equalities
`subtotal + total_tax = total_amount`, `amount_due = total_amount` and
`quantity × unit_price + tax_amount = line_total` per line, and in which
either every line tax amount is zero or the line-total sum is not within
tolerance of the subtotal (so that nonzero line taxes are not misread as a
US-style document), `MathValidator.validate` returns `is_valid = true` with
zero errors. -/
theorem C1_exact_documents_validate (d : CanonicalDocument)
    (h1 : d.totals.subtotal + d.totals.total_tax = d.totals.total_amount)
    (h2 : d.totals.amount_due = some d.totals.total_amount)
    (h3 : ∀ it ∈ d.line_items,
      it.quantity * it.unit_price + it.tax_amount = it.line_total)
    (h4 : ∀ it ∈ d.line_items,
      it.discount_percent.getD 0 = 0 ∧ it.discount_amount.getD 0 = 0)
    (h5 : d.totals.shipping_amount.getD 0 = 0)
    (h5' : d.totals.rounding_amount.getD 0 = 0)
    (h6 : d.totals.tax_breakdown = [])
    (h7 : (∀ it ∈ d.line_items, it.tax_amount = 0) ∨
      MathValidator.is_close (MathValidator.sumLineTotals d.line_items)
        d.totals.subtotal = false) :
    (MathValidator.validate d).is_valid = true ∧
    (MathValidator.validate d).errors = [] := by
  have hline : (MathValidator.validate_line_items d
      (MathValidator.is_us_style_invoice d)).errors = [] := by
    unfold MathValidator.validate_line_items
    simp only [List.flatten_eq_nil_iff, List.mem_map]
    rintro l ⟨it, hit, rfl⟩
    cases hb : MathValidator.is_us_style_invoice d with
    | true =>
        have hz := us_style_imp_zero_tax d h7 hb
        exact lineItemCheck_no_errors_of_zero_tax _ it (h3 it hit)
          (h4 it hit).1 (h4 it hit).2 (hz it hit)
    | false => exact lineItemCheck_eu_no_errors it
  have hsub : ∀ us, (MathValidator.validate_subtotal d us).errors = [] :=
    fun _ => rfl
  have hustax : (MathValidator.validate_us_style_tax d).errors = [] := by
    unfold MathValidator.validate_us_style_tax
    simp [h6]
  have heutax : (MathValidator.validate_eu_style_tax d).errors = [] := rfl
  have hgrand := validate_grand_total_no_errors d
    (MathValidator.is_us_style_invoice d) h1 h2 h5 h5'
  have herr : (MathValidator.validate d).errors = [] := by
    unfold MathValidator.validate
    simp only [ValidationResult.merge, List.append_eq_nil, List.nil_append]
    split_ifs <;> simp [hline, hsub _, hustax, heutax, hgrand]
  have hval : (MathValidator.validate d).is_valid = true := by
    rw [math_validate_inv d, herr]
    rfl
  exact ⟨hval, herr⟩

/-- A plain exactly-consistent document with no discounts or extras. -/
def plainItem : LineItem :=
  { line_number := 1, quantity := 1, unit_price := 100, line_total := 100 }

/-- See `plainItem`. -/
def plainDoc : CanonicalDocument :=
  { line_items := [plainItem],
    totals := { subtotal := 100, total_amount := 100, amount_due := some 100 } }

theorem C1_exact_documents_validate_witness :
    (MathValidator.validate plainDoc).is_valid = true ∧
    (MathValidator.validate plainDoc).errors = [] :=
  C1_exact_documents_validate plainDoc (by decide) (by decide) (by decide)
    (by decide) (by decide) (by decide) (by decide) (Or.inl (by decide))

/-- Is an amount-due mismatch error present in an error list? -/
def hasAmountDueErr (l : List VErr) : Bool :=
  l.any (fun e => match e with | .amountDueMismatch _ _ => true | _ => false)

/-- A document with a prepaid amount whose `amount_due` equals `total_amount`
directly but matches neither `total_amount − prepaid_amount` nor the computed
expected total. -/
def prepaidTotals : Totals :=
  { subtotal := 200, total_amount := 100, amount_due := some 100,
    prepaid_amount := some 50 }

/-- See `prepaidTotals`. -/
def prepaidDoc : CanonicalDocument := { totals := prepaidTotals }

/-- C5 counterexample: the grand-total validation reports an amount-due error
for `prepaidDoc` even though `amount_due` is close to `total_amount` directly;
the code's fallback comparison is against `subtotal + total_tax + shipping +
rounding`, not against `total_amount`. -/
theorem C5_counterexample :
    hasAmountDueErr (MathValidator.validate_grand_total prepaidDoc
      (MathValidator.is_us_style_invoice prepaidDoc)).errors = true ∧
    MathValidator.is_close 100 prepaidDoc.totals.total_amount = true ∧
    prepaidDoc.totals.amount_due = some 100 := by decide

/-- C5 amended: for a non-null `amount_due`, the grand-total validation
reports an amount-due error if and only if `amount_due` is not close to
`total_amount − prepaid_amount` (prepaid subtracted only when truthy) and also
not close to the computed expected total
`subtotal + total_tax + shipping + rounding`. -/
theorem C5_amount_due_error_iff (d : CanonicalDocument) (us : Bool) (ad : ℚ)
    (h : d.totals.amount_due = some ad) :
    hasAmountDueErr (MathValidator.validate_grand_total d us).errors =
      (!MathValidator.is_close ad (MathValidator.expectedDue d.totals) &&
        !MathValidator.is_close ad (MathValidator.expectedTotal d.totals)) := by
  unfold MathValidator.validate_grand_total
  simp only [h]
  split_ifs <;> simp_all [hasAmountDueErr]

/-- A document whose amount due equals its total with no prepaid amount. -/
def settledDoc : CanonicalDocument :=
  { totals := { total_amount := 100, amount_due := some 100 } }

theorem C5_amount_due_error_iff_witness :
    settledDoc.totals.amount_due = some 100 ∧
    hasAmountDueErr (MathValidator.validate_grand_total settledDoc false).errors =
      (!MathValidator.is_close 100 (MathValidator.expectedDue settledDoc.totals) &&
        !MathValidator.is_close 100 (MathValidator.expectedTotal settledDoc.totals)) :=
  ⟨rfl, C5_amount_due_error_iff settledDoc false 100 rfl⟩

theorem dictGet_insert (m : FieldMap) (k v k' : String) :
    dictGet (dictInsert m k v) k' = if k' = k then some v else dictGet m k' := by
  induction m with
  | nil =>
      simp only [dictInsert, dictGet]
      by_cases h : k = k'
      · simp [h]
      · simp [h, Ne.symm h]
  | cons p rest ih =>
      obtain ⟨pk, pv⟩ := p
      by_cases hp : pk = k
      · subst hp
        simp only [dictInsert, beq_self_eq_true, if_true]
        by_cases hk : k' = pk
        · subst hk; simp [dictGet]
        · have hne : (pk == k') = false := by
            simp [Ne.symm hk]
          simp [dictGet, hne, hk]
      · have hpne : (pk == k) = false := by simp [hp]
        simp only [dictInsert, hpne, Bool.false_eq_true, if_false, dictGet, ih]
        by_cases hk : k' = k
        · subst hk
          have : (pk == k') = false := by simp [hp]
          simp [this]
        · simp [hk]

theorem dictGet_foldl_insert (ks : List String) (path : String) :
    ∀ (m : FieldMap) (k : String),
      dictGet (ks.foldl (fun m k2 => dictInsert m k2 path) m) k =
        if k ∈ ks then some path else dictGet m k := by
  induction ks with
  | nil => intro m k; simp
  | cons k0 rest ih =>
      intro m k
      simp only [List.foldl_cons]
      rw [ih]
      by_cases hk : k ∈ rest
      · simp [hk]
      · simp only [hk, Bool.false_eq_true, if_false, dictGet_insert, List.mem_cons]
        by_cases h0 : k = k0 <;> simp [h0, hk]

theorem dictGet_addNumberVariants (v : ℚ) (path : String) (m : FieldMap)
    (k : String) :
    dictGet (addNumberVariants (some v) path m) k =
      if k ∈ numberVariantKeys v then some path else dictGet m k := by
  simp [addNumberVariants, dictGet_foldl_insert]

/-- A document in which `total_tax` and `subtotal` carry the same value, so
all their textual variant keys collide. -/
def collidingTotalsDoc : CanonicalDocument :=
  { totals := { total_tax := 215/10, subtotal := 215/10, total_amount := 43 } }

/-- C8 counterexample: in `collidingTotalsDoc`, `total_tax` (registered first)
and `subtotal` (registered second) register identical variant keys, and a
bounding box reading `21.5` is linked to `totals.subtotal` — the
later-registered field — because Python dict assignment overwrites on
collision, refuting the claim that the earlier-registered field wins. -/
theorem C8_counterexample :
    collidingTotalsDoc.totals.total_tax = collidingTotalsDoc.totals.subtotal ∧
    (linkBoundingBoxesToFields [{ text := "21.5" }] collidingTotalsDoc).map
      (fun b => b.field_path) = [some "totals.subtotal"] ∧
    ("totals.subtotal" : String) ≠ "totals.total_tax" := by decide

/-- C8 amended: on key collisions among the totals registrations (done in the
order total_tax, subtotal, total_amount, amount_due), the later-registered
field wins: a key among `subtotal`'s variants that is not also produced by the
still-later `total_amount` and `amount_due` registrations maps to
`totals.subtotal`, even when it collides with `total_tax`'s variants. -/
theorem C8_later_registration_wins (t : Totals) (k : String)
    (hsub : k ∈ numberVariantKeys t.subtotal)
    (hta : k ∉ numberVariantKeys t.total_amount)
    (hdue : ∀ v, t.amount_due = some v → k ∉ numberVariantKeys v) :
    dictGet (addTotalsFields t []) k = some "totals.subtotal" := by
  unfold addTotalsFields
  have hlast : dictGet (addNumberVariants t.amount_due "totals.amount_due"
      (addNumberVariants (some t.total_amount) "totals.total_amount"
        (addNumberVariants (some t.subtotal) "totals.subtotal"
          (addNumberVariants (some t.total_tax) "totals.total_tax" [])))) k =
      dictGet (addNumberVariants (some t.total_amount) "totals.total_amount"
        (addNumberVariants (some t.subtotal) "totals.subtotal"
          (addNumberVariants (some t.total_tax) "totals.total_tax" []))) k := by
    cases hd : t.amount_due with
    | none => rfl
    | some v =>
        rw [dictGet_addNumberVariants]
        simp [hdue v hd]
  rw [hlast, dictGet_addNumberVariants, if_neg hta,
    dictGet_addNumberVariants, if_pos hsub]

theorem C8_later_registration_wins_witness :
    ("21.5" ∈ numberVariantKeys collidingTotalsDoc.totals.subtotal) ∧
    ("21.5" ∈ numberVariantKeys collidingTotalsDoc.totals.total_tax) ∧
    ("21.5" ∉ numberVariantKeys collidingTotalsDoc.totals.total_amount) ∧
    dictGet (addTotalsFields collidingTotalsDoc.totals []) "21.5" =
      some "totals.subtotal" :=
  ⟨by decide, by decide, by decide,
    C8_later_registration_wins collidingTotalsDoc.totals "21.5" (by decide)
      (by decide) (fun v hv => Option.noConfusion hv)⟩

theorem list_set_self {α : Type} :
    ∀ (l : List α) (i : Nat) (c : α), l[i]? = some c → l.set i c = l := by
  intro l
  induction l with
  | nil => intro i c h; simp at h
  | cons a t ih =>
      intro i c h
      cases i with
      | zero =>
          simp only [List.getElem?_cons_zero, Option.some.injEq] at h
          simp [h]
      | succ n =>
          simp only [List.getElem?_cons_succ] at h
          simp [List.set, ih n c h]

theorem setFirstField_self :
    ∀ (fields : List (String × PyVal)) (name : String) (child : PyVal),
      lookupField fields name = some child →
      setFirstField fields name child = fields := by
  intro fields
  induction fields with
  | nil => intro name child h; simp [lookupField] at h
  | cons p rest ih =>
      obtain ⟨k, v⟩ := p
      intro name child h
      simp only [lookupField] at h
      simp only [setFirstField]
      by_cases hk : (k == name) = true
      · rw [if_pos hk] at h
        injection h with h2
        rw [if_pos hk, h2]
      · rw [if_neg hk] at h
        rw [if_neg hk, ih name child h]

theorem currentAt_vStr : ∀ (parts : List String) (s : String),
    currentAt (.vStr s) parts = none := by
  intro parts
  induction parts with
  | nil => intro s; rfl
  | cons p rest ih =>
      intro s
      cases rest with
      | nil =>
          simp only [currentAt, getattrPy]
          split_ifs <;> rfl
      | cons p2 r2 =>
          simp only [currentAt]
          split_ifs
          · cases (s.data[strToNat p]?) <;> simp [ih]
          · simp [getattrPy]

theorem updAt_ok_of_dec_parse_fail (value : String)
    (hparse : pyDecimalParse (cleanDecimalText value) = none) :
    ∀ (parts : List String) (root : PyVal) (q : ℚ),
      currentAt root parts = some (.vDec q) →
      updAt root parts value = .ok root := by
  intro parts
  induction parts with
  | nil => intro root q h; simp [currentAt] at h
  | cons p rest ih =>
      intro root q h
      cases rest with
      | nil =>
          simp only [currentAt] at h
          by_cases hd : isDigitStr p = true
          · simp [hd] at h
          · rw [if_neg hd] at h
            simp only [updAt, convertAndSet, hd, Bool.false_eq_true, if_false, h,
              hparse]
            rfl
      | cons p2 rest2 =>
          by_cases hd : isDigitStr p = true
          · cases root with
            | list l =>
                simp only [currentAt, hd, if_true] at h
                cases hg : l[strToNat p]? with
                | none => simp [hg] at h
                | some child =>
                    simp only [hg] at h
                    have hch := ih child q h
                    simp only [updAt, hd, if_true, hg, hch, Except.bind]
                    simp [list_set_self l (strToNat p) child hg]
            | vStr s =>
                simp only [currentAt, hd, if_true] at h
                cases hg : s.data[strToNat p]? with
                | none => simp [hg] at h
                | some c =>
                    simp only [hg] at h
                    simp [currentAt_vStr] at h
            | vNone => simp [currentAt, hd] at h
            | vInt n => simp [currentAt, hd] at h
            | vFloat x => simp [currentAt, hd] at h
            | vDec q2 => simp [currentAt, hd] at h
            | vDate dt => simp [currentAt, hd] at h
            | obj fields => simp [currentAt, hd] at h
          · cases root with
            | obj fields =>
                simp only [currentAt, hd, Bool.false_eq_true, if_false] at h
                cases hg : getattrPy (.obj fields) p with
                | none => simp [hg] at h
                | some child =>
                    simp only [hg] at h
                    have hlk : lookupField fields p = some child := hg
                    cases child with
                    | vNone => simp at h
                    | vStr s =>
                        simp [currentAt_vStr] at h
                    | vDec q2 =>
                        have hch := ih (.vDec q2) q h
                        simp only [updAt, hd, Bool.false_eq_true, if_false, hg, hch,
                          Except.bind]
                        simp [setFirstField_self fields p (.vDec q2) hlk]
                    | vInt n =>
                        have hch := ih (.vInt n) q h
                        simp only [updAt, hd, Bool.false_eq_true, if_false, hg, hch,
                          Except.bind]
                        simp [setFirstField_self fields p (.vInt n) hlk]
                    | vFloat x =>
                        have hch := ih (.vFloat x) q h
                        simp only [updAt, hd, Bool.false_eq_true, if_false, hg, hch,
                          Except.bind]
                        simp [setFirstField_self fields p (.vFloat x) hlk]
                    | vDate dt =>
                        have hch := ih (.vDate dt) q h
                        simp only [updAt, hd, Bool.false_eq_true, if_false, hg, hch,
                          Except.bind]
                        simp [setFirstField_self fields p (.vDate dt) hlk]
                    | obj fields2 =>
                        have hch := ih (.obj fields2) q h
                        simp only [updAt, hd, Bool.false_eq_true, if_false, hg, hch,
                          Except.bind]
                        simp [setFirstField_self fields p (.obj fields2) hlk]
                    | list l2 =>
                        have hch := ih (.list l2) q h
                        simp only [updAt, hd, Bool.false_eq_true, if_false, hg, hch,
                          Except.bind]
                        simp [setFirstField_self fields p (.list l2) hlk]
            | vNone => simp [currentAt, hd, getattrPy] at h
            | vStr st => simp [currentAt, hd, getattrPy] at h
            | vInt n => simp [currentAt, hd, getattrPy] at h
            | vFloat x => simp [currentAt, hd, getattrPy] at h
            | vDec q2 => simp [currentAt, hd, getattrPy] at h
            | vDate dt => simp [currentAt, hd, getattrPy] at h
            | list l2 => simp [currentAt, hd, getattrPy] at h

/-- A stored document whose `line_items` list is empty. -/
def emptyItemsPyDoc : PyVal := .obj [("line_items", .list [])]

/-- C9 counterexample: a reverse-sync edit addressing `line_items[0].line_total`
on a document with no line items makes `obj[int(part)]` raise an uncaught
`IndexError`, which propagates to the caller — refuting the claim that the
field update never propagates an exception. -/
theorem C9_counterexample :
    updateDocumentField emptyItemsPyDoc "line_items[0].line_total" "5" =
      .error .indexError := rfl

/-- C9 amended: when the path resolves to a `Decimal`-typed field and the
cleaned replacement text fails to parse as a decimal, the update is caught and
returns the document unchanged, raising nothing.  (Exceptions can still escape
from path traversal — an out-of-range list index or subscripting a
non-subscriptable object — and from assignment on non-model leaves.) -/
theorem C9_decimal_parse_failure_leaves_doc (root : PyVal) (path value : String)
    (q : ℚ) (hcur : currentAt root (splitPath path) = some (.vDec q))
    (hparse : pyDecimalParse (cleanDecimalText value) = none) :
    updateDocumentField root path value = .ok root := by
  unfold updateDocumentField
  cases hs : splitPath path with
  | nil =>
      rw [hs] at hcur
      simp [currentAt] at hcur
  | cons p ps =>
      rw [hs] at hcur
      exact updAt_ok_of_dec_parse_fail value hparse (p :: ps) root q hcur

/-- A stored document with a decimal `totals.total_amount` field. -/
def decFieldPyDoc : PyVal := .obj [("totals", .obj [("total_amount", .vDec 100)])]

theorem C9_decimal_parse_failure_leaves_doc_witness :
    currentAt decFieldPyDoc (splitPath "totals.total_amount") = some (.vDec 100) ∧
    pyDecimalParse (cleanDecimalText "abc") = none ∧
    updateDocumentField decFieldPyDoc "totals.total_amount" "abc" =
      .ok decFieldPyDoc :=
  ⟨rfl, rfl, C9_decimal_parse_failure_leaves_doc decFieldPyDoc
    "totals.total_amount" "abc" 100 rfl rfl⟩
